import Mathlib

/-
Shallow embedding of the simulation/prediction core of the repository:
`temperature_sim.py` (TemperatureSimulator), `traffic_detection.py`
(TrafficSimulator) and `predictor.py` (TrafficPredictor).

Modelling conventions:
* `datetime` instants are rationals counting seconds; `timedelta(minutes=m)`
  is `+ 60*m`, `timedelta(hours=h)` is `+ 3600*h`, and
  `(t - base).total_seconds() / 60` is exact rational arithmetic.
* Python/numpy floats are modelled as exact rationals (reals where the
  source evaluates a transcendental sine); `astype(int)` and `int(...)`
  are truncation toward zero.
* every `np.random.normal` draw is an explicit parameter, so theorems
  quantify over every outcome of the noise.
* the mutable `TrafficPredictor` object becomes explicit state passing:
  each method returns the updated state together with its return value
  (the fitted `LinearRegression` instance is the `model` field).
-/

/-- Noise-free core of `TemperatureSimulator._calculate_temperature`
(temperature_sim.py, lines 59-68): base temperature 27.0, daily amplitude
7.0, `phase_shift = (14 - 5) * (2 * pi / 24)` and
`temp = base + amplitude * sin(2 * pi * (hour - 5) / 24 - phase_shift)`,
as a function of `hour = timestamp.hour + timestamp.minute / 60`.
The gaussian noise draw added afterwards and the final `round(_, 1)` are
outside the noise-free curve. -/
noncomputable def _calculate_temperature_noisefree (hour : ℝ) : ℝ :=
  27.0 + 7.0 * Real.sin (2 * Real.pi * (hour - 5) / 24 - (14 - 5) * (2 * Real.pi / 24))

/-- `TemperatureSimulator.get_forecast` (temperature_sim.py, lines 29-47):
one forecast point per `i in range(hours)`, at `current_time + i` hours.
The pointwise temperature evaluation `_calculate_temperature(future_time)`
(sinusoid, a fresh noise draw, rounding to one decimal) is abstracted as
the explicit function `tempAt`, so results hold for every noise outcome. -/
def get_forecast (tempAt : ℚ → ℚ) (current_time : ℚ) (hours : ℕ) : List (ℚ × ℚ) :=
  (List.range hours).map
    (fun (i : ℕ) => (current_time + 3600 * (i : ℚ), tempAt (current_time + 3600 * (i : ℚ))))

/-- Multiplier `self.multipliers['peak_hour']` of traffic_detection.py. -/
def mult_peak_hour : ℚ := 2

/-- Multiplier `self.multipliers['off_peak']` (0.7) of traffic_detection.py. -/
def mult_off_peak : ℚ := 7/10

/-- Multiplier `self.multipliers['weekend']` (0.8) of traffic_detection.py. -/
def mult_weekend : ℚ := 8/10

/-- Multiplier `self.multipliers['rain']` (1.3); configured but never used
in the generation path. -/
def mult_rain : ℚ := 13/10

/-- Multiplier `self.multipliers['high_temp']` (1.2); configured but never
used in the generation path. -/
def mult_high_temp : ℚ := 12/10

/-- `self.peak_hours['morning'] = (8, 11)` of traffic_detection.py. -/
def peak_morning : ℕ × ℕ := (8, 11)

/-- `self.peak_hours['evening'] = (16, 20)` of traffic_detection.py. -/
def peak_evening : ℕ × ℕ := (16, 20)

/-- Fields of a Python `datetime` that the traffic simulator reads:
`timestamp.hour`, `timestamp.minute` and `timestamp.weekday()`. -/
structure PyTime where
  hour : ℕ
  minute : ℕ
  weekday : ℕ

/-- `TrafficSimulator._is_peak_hour` (traffic_detection.py, lines 31-36):
`(morning_start <= hour < morning_end) or (evening_start <= hour < evening_end)`. -/
def _is_peak_hour (hour : ℕ) : Bool :=
  (decide (peak_morning.1 ≤ hour) && decide (hour < peak_morning.2)) ||
  (decide (peak_evening.1 ≤ hour) && decide (hour < peak_evening.2))

/-- `TrafficSimulator._get_time_based_multiplier` (traffic_detection.py,
lines 38-55): start from 1.0, multiply by the weekend factor when
`timestamp.weekday() >= 5`, then by the peak factor when `_is_peak_hour`,
else by the off-peak factor when `hour >= 23 or hour <= 5`. -/
def _get_time_based_multiplier (ts : PyTime) : ℚ :=
  let hour := ts.hour
  let is_weekend := decide (5 ≤ ts.weekday)
  let multiplier : ℚ := 1
  let multiplier := if is_weekend then multiplier * mult_weekend else multiplier
  let multiplier :=
    if _is_peak_hour hour then multiplier * mult_peak_hour
    else if 23 ≤ hour ∨ hour ≤ 5 then multiplier * mult_off_peak
    else multiplier
  multiplier

/-- Constructor state of `TrafficSimulator` (defaults `base_flow=100`,
`variance=20`). -/
structure TrafficSimulator where
  base_flow : ℚ
  variance : ℚ

/-- Truncation toward zero of a real number, the behaviour of numpy's
cast to `int` used by the source. -/
noncomputable def realTrunc (x : ℝ) : ℤ :=
  if 0 ≤ x then ⌊x⌋ else -⌊-x⌋

/-- `TrafficSimulator.generate_traffic_pattern` (traffic_detection.py,
lines 57-85). The draw `np.random.normal(0, variance/2)` is the explicit
parameter `noise`; the `timestamp=None` default takes the current time,
covered here by quantifying over the timestamp argument. Returns
`(timestamp, max(0, int(count)))`. -/
noncomputable def generate_traffic_pattern
    (sim : TrafficSimulator) (timestamp : PyTime) (noise : ℝ) : PyTime × ℤ :=
  let multiplier := _get_time_based_multiplier timestamp
  let base_count : ℝ := ((sim.base_flow * multiplier : ℚ) : ℝ)
  let count : ℝ := base_count + noise
  let hour_fraction : ℝ := (timestamp.hour : ℝ) + (timestamp.minute : ℝ) / 60
  let periodic_variation : ℝ := Real.sin (2 * Real.pi * hour_fraction / 24) * 0.2 * base_count
  let count := count + periodic_variation
  (timestamp, max 0 (realTrunc count))

/-- Coefficients of a fitted two-feature linear model with intercept,
standing for the state of `sklearn.linear_model.LinearRegression` after
`fit`: prediction at features `(x1, x2)` is `a*x1 + b*x2 + c`. -/
structure Fit3 where
  a : ℚ
  b : ℚ
  c : ℚ

/-- State of a `TrafficPredictor` (predictor.py, lines 6-19): the window
bound, the three parallel history lists, and the regression model object.
The freshly constructed (never fitted) model is represented by zero
coefficients; no theorem depends on that representation. -/
structure PredictorState where
  window_size : ℕ
  history_times : List ℚ
  history_counts : List ℤ
  history_temps : List ℚ
  model : Fit3

/-- `TrafficPredictor.__init__` (default `window_size=30`). -/
def initState (window_size : ℕ) : PredictorState :=
  { window_size := window_size
    history_times := []
    history_counts := []
    history_temps := []
    model := ⟨0, 0, 0⟩ }

/-- Python slice `l[-w:]` for a nonnegative `w`: the last `w` elements,
except that `l[-0:]` is the whole list (since `-0 == 0`). -/
def pySliceLast {α : Type} (w : ℕ) (l : List α) : List α :=
  if w = 0 then l else l.drop (l.length - w)

/-- `TrafficPredictor.add_datapoint` (predictor.py, lines 21-41): append
to the three parallel lists; if the length now exceeds `window_size`,
keep only `l[-window_size:]` of each. The `temperature=None` default
fetches a value from the temperature simulator; that value is covered by
quantifying over the `temperature` argument. -/
def add_datapoint (s : PredictorState) (timestamp : ℚ) (count : ℤ)
    (temperature : ℚ) : PredictorState :=
  let times := s.history_times ++ [timestamp]
  let counts := s.history_counts ++ [count]
  let temps := s.history_temps ++ [temperature]
  if s.window_size < times.length then
    { s with
        history_times := pySliceLast s.window_size times
        history_counts := pySliceLast s.window_size counts
        history_temps := pySliceLast s.window_size temps }
  else
    { s with history_times := times, history_counts := counts, history_temps := temps }

/-- One inserted observation: (timestamp, count, temperature). -/
abbrev Obs := ℚ × ℤ × ℚ

/-- A sequence of `add_datapoint` calls. -/
def add_all (s : PredictorState) (l : List Obs) : PredictorState :=
  l.foldl (fun s o => add_datapoint s o.1 o.2.1 o.2.2) s

/-- Python's `min(iterable, key=f)`: the first element attaining the
minimal key (ties keep the earliest element), `none` on an empty list
(where Python raises `ValueError`). -/
def minBy {α : Type} (f : α → ℚ) : List α → Option α
  | [] => none
  | x :: xs =>
    match minBy f xs with
    | none => some x
    | some m => if f x ≤ f m then some x else some m

/-- Ordinary least squares with intercept for two features, the fit
performed by `sklearn.linear_model.LinearRegression().fit(X, y)`: the
normal equations
`[[s11,s12,s1],[s12,s22,s2],[s1,s2,n]] * [a,b,c] = [s1y,s2y,sy]`
solved by Cramer's rule. In the singular case sklearn's lstsq would give
a minimum-norm solution; that case is represented by zero coefficients
and no claim depends on it. -/
def olsFit (X : List (ℚ × ℚ)) (y : List ℚ) : Fit3 :=
  let n : ℚ := X.length
  let s1 := (X.map (fun p => p.1)).sum
  let s2 := (X.map (fun p => p.2)).sum
  let s11 := (X.map (fun p => p.1 * p.1)).sum
  let s12 := (X.map (fun p => p.1 * p.2)).sum
  let s22 := (X.map (fun p => p.2 * p.2)).sum
  let xy := X.zip y
  let s1y := (xy.map (fun p => p.1.1 * p.2)).sum
  let s2y := (xy.map (fun p => p.1.2 * p.2)).sum
  let sy := y.sum
  let det := s11 * (s22 * n - s2 * s2) - s12 * (s12 * n - s2 * s1) + s1 * (s12 * s2 - s22 * s1)
  if det = 0 then ⟨0, 0, 0⟩
  else
    let da := s1y * (s22 * n - s2 * s2) - s12 * (s2y * n - s2 * sy) + s1 * (s2y * s2 - s22 * sy)
    let db := s11 * (s2y * n - sy * s2) - s1y * (s12 * n - s2 * s1) + s1 * (s12 * sy - s2y * s1)
    let dc := s11 * (s22 * sy - s2 * s2y) - s12 * (s12 * sy - s2 * s1y) + s1 * (s12 * s2y - s22 * s1y)
    ⟨da / det, db / det, dc / det⟩

/-- The model fitted inside `predict_next` (predictor.py, lines 56-65):
features are elapsed minutes from the oldest retained time paired with
the stored temperatures, targets are the stored counts. -/
def fittedModel (s : PredictorState) : Fit3 :=
  let base_time := s.history_times.headD 0
  let time_features := s.history_times.map (fun t => (t - base_time) / 60)
  let X := time_features.zip s.history_temps
  let y := s.history_counts.map (fun c => (c : ℚ))
  olsFit X y

/-- The future timestamps of `predict_next` (predictor.py, lines 67-69):
`last_time + timedelta(minutes=i+1)` for `i in range(minutes_ahead)`. -/
def futureTimes (s : PredictorState) (minutes_ahead : ℕ) : List ℚ :=
  let last_time := s.history_times.getLastD 0
  (List.range minutes_ahead).map (fun (i : ℕ) => last_time + 60 * ((i : ℚ) + 1))

/-- The forecast fetched by `predict_next` (predictor.py, line 72):
`get_forecast(hours=int((minutes_ahead + 59) / 60))`; Python's float
division then `int(...)` truncation is natural-number division here. -/
def forecastData (tempAt : ℚ → ℚ) (now : ℚ) (minutes_ahead : ℕ) : List (ℚ × ℚ) :=
  get_forecast tempAt now ((minutes_ahead + 59) / 60)

/-- The matching step of `predict_next` (predictor.py, lines 76-79):
`min(forecast_data, key=lambda x: abs(x[0] - future_time))[1]`. The
`getD` default is never reached when the forecast list is nonempty. -/
def matchedTemp (forecast_data : List (ℚ × ℚ)) (future_time : ℚ) : ℚ :=
  ((minBy (fun x => |x.1 - future_time|) forecast_data).getD (0, 0)).2

/-- The `future_temps` list of `predict_next` (predictor.py, lines 73-79). -/
def futureTemps (s : PredictorState) (tempAt : ℚ → ℚ) (now : ℚ)
    (minutes_ahead : ℕ) : List ℚ :=
  (futureTimes s minutes_ahead).map (matchedTemp (forecastData tempAt now minutes_ahead))

/-- The real-valued predictions of `predict_next` (predictor.py, lines
81-86): `self.model.predict(X_future)` before the `astype(int)` cast. -/
def predictReal (s : PredictorState) (tempAt : ℚ → ℚ) (now : ℚ)
    (minutes_ahead : ℕ) : List ℚ :=
  let fit := fittedModel s
  let base_time := s.history_times.headD 0
  let future_time_features := (futureTimes s minutes_ahead).map (fun t => (t - base_time) / 60)
  let X_future := future_time_features.zip (futureTemps s tempAt now minutes_ahead)
  X_future.map (fun p => fit.a * p.1 + fit.b * p.2 + fit.c)

/-- Truncation toward zero of a rational, the behaviour of numpy's
`astype(int)` on the predictions array. -/
def ratTrunc (x : ℚ) : ℤ :=
  if 0 ≤ x then ⌊x⌋ else -⌊-x⌋

/-- `TrafficPredictor.predict_next` (predictor.py, lines 43-88): with
fewer than 5 observations return three empty lists and leave the state
untouched; otherwise fit the model (mutating `self.model`) and return
the future times, the truncated predictions, and the matched
temperatures. -/
def predict_next (s : PredictorState) (tempAt : ℚ → ℚ) (now : ℚ)
    (minutes_ahead : ℕ) : PredictorState × (List ℚ × List ℤ × List ℚ) :=
  if s.history_times.length < 5 then (s, ([], [], []))
  else
    ({ s with model := fittedModel s },
     (futureTimes s minutes_ahead,
      (predictReal s tempAt now minutes_ahead).map ratTrunc,
      futureTemps s tempAt now minutes_ahead))

/-- `TrafficPredictor.check_congestion` (predictor.py, lines 90-101):
`any(count > threshold for count in predictions)` over
`predict_next(minutes_ahead=5)`. -/
def check_congestion (s : PredictorState) (tempAt : ℚ → ℚ) (now : ℚ)
    (threshold : ℚ) : PredictorState × Bool :=
  let result := predict_next s tempAt now 5
  (result.1, result.2.2.1.any (fun count => decide (threshold < (count : ℚ))))

/-- The sliding window part of a predictor state. -/
def windowOf (s : PredictorState) : List ℚ × List ℤ × List ℚ :=
  (s.history_times, s.history_counts, s.history_temps)

/-- Reference shape of the state after inserting the observations `hist`
into a fresh predictor with bound `w`: each parallel list holds the last
`w` projections. -/
def windowState (w : ℕ) (hist : List Obs) : PredictorState :=
  { window_size := w
    history_times := (hist.map (fun o => o.1)).drop (hist.length - w)
    history_counts := (hist.map (fun o => o.2.1)).drop (hist.length - w)
    history_temps := (hist.map (fun o => o.2.2)).drop (hist.length - w)
    model := ⟨0, 0, 0⟩ }

/-- A constant temperature evaluation, one admissible outcome of the
noisy temperature simulator, used for concrete witnesses. -/
def tempConst : ℚ → ℚ := fun _ => 25

/-- A concrete reachable predictor state with five observations one
minute apart, used for concrete witnesses. -/
def demoState : PredictorState :=
  { window_size := 30
    history_times := [0, 60, 120, 180, 240]
    history_counts := [100, 102, 101, 105, 107]
    history_temps := [27, 27, 27, 27, 28]
    model := ⟨0, 0, 0⟩ }

/-- Observations used by concrete witnesses. -/
def demoObs : List Obs := [(0, 100, 27), (60, 102, 28), (120, 101, 29)]

lemma windowOf_predict_next (s : PredictorState) (tempAt : ℚ → ℚ) (now : ℚ) (k : ℕ) :
    windowOf (predict_next s tempAt now k).1 = windowOf s := by
  unfold predict_next windowOf
  split <;> rfl

/-- C9: predict_next and check_congestion never modify the sliding window;
the retained times, counts and temperatures are identical before and after
either call. -/
theorem c9_frame (s : PredictorState) (tempAt : ℚ → ℚ) (now : ℚ) (k : ℕ) (t : ℚ) :
    windowOf (predict_next s tempAt now k).1 = windowOf s ∧
    windowOf (check_congestion s tempAt now t).1 = windowOf s := by
  refine ⟨windowOf_predict_next s tempAt now k, ?_⟩
  show windowOf (predict_next s tempAt now 5).1 = windowOf s
  exact windowOf_predict_next s tempAt now 5

lemma predict_next_guard (s : PredictorState) (tempAt : ℚ → ℚ) (now : ℚ)
    (minutes_ahead : ℕ) (h : s.history_times.length < 5) :
    predict_next s tempAt now minutes_ahead = (s, ([], [], [])) := by
  unfold predict_next
  rw [if_pos h]

/-- C3: with fewer than 5 retained observations, predict_next returns three
empty sequences (and, short-circuiting before the fit, leaves the state
untouched), for every value of minutes_ahead. -/
theorem c3_insufficient_data_guard (s : PredictorState) (tempAt : ℚ → ℚ) (now : ℚ)
    (minutes_ahead : ℕ) (h : s.history_times.length < 5) :
    predict_next s tempAt now minutes_ahead = (s, ([], [], [])) :=
  predict_next_guard s tempAt now minutes_ahead h

/-- Witness for C3 at a freshly constructed predictor and minutes_ahead 15. -/
theorem c3_insufficient_data_guard_witness :
    (initState 30).history_times.length < 5 ∧
    predict_next (initState 30) tempConst 0 15 = (initState 30, ([], [], [])) :=
  ⟨by decide, c3_insufficient_data_guard (initState 30) tempConst 0 15 (by decide)⟩

/-- C5: check_congestion is true iff some predicted count of
predict_next(minutes_ahead=5) strictly exceeds the threshold; with fewer
than 5 observations the prediction is empty and the result is false. -/
theorem c5_congestion_iff (s : PredictorState) (tempAt : ℚ → ℚ) (now : ℚ) (t : ℚ) :
    ((check_congestion s tempAt now t).2 = true ↔
      ∃ c ∈ (predict_next s tempAt now 5).2.2.1, t < (c : ℚ)) ∧
    (s.history_times.length < 5 → (check_congestion s tempAt now t).2 = false) := by
  constructor
  · unfold check_congestion
    simp [List.any_eq_true]
  · intro h
    unfold check_congestion
    rw [predict_next_guard s tempAt now 5 h]
    rfl

/-- Witness for C5 at a freshly constructed predictor and threshold 150. -/
theorem c5_congestion_iff_witness :
    (((check_congestion (initState 30) tempConst 0 150).2 = true ↔
      ∃ c ∈ (predict_next (initState 30) tempConst 0 5).2.2.1, (150 : ℚ) < (c : ℚ))) ∧
    ((initState 30).history_times.length < 5 →
      (check_congestion (initState 30) tempConst 0 150).2 = false) :=
  c5_congestion_iff (initState 30) tempConst 0 150

/-- C7: the time-based multiplier is the product of a weekend factor
(0.8 when the day-of-week index is at least 5, else 1.0) and a
time-of-day factor (2.0 on [8,11) or [16,20); else 0.7 when the hour is
at least 23 or at most 5; else 1.0). -/
theorem c7_time_based_multiplier (ts : PyTime) :
    _get_time_based_multiplier ts =
      (if 5 ≤ ts.weekday then (8 : ℚ)/10 else 1) *
      (if (8 ≤ ts.hour ∧ ts.hour < 11) ∨ (16 ≤ ts.hour ∧ ts.hour < 20) then (2 : ℚ)
       else if 23 ≤ ts.hour ∨ ts.hour ≤ 5 then (7 : ℚ)/10
       else 1) := by
  unfold _get_time_based_multiplier _is_peak_hour
  unfold peak_morning peak_evening mult_weekend mult_peak_hour mult_off_peak
  simp only [Bool.or_eq_true, Bool.and_eq_true, decide_eq_true_eq]
  split_ifs <;> ring

/-- C8: for every timestamp and every outcome of the noise draw, the
traffic generator returns that timestamp paired with a non-negative
integer count. -/
theorem c8_traffic_nonnegative (sim : TrafficSimulator) (ts : PyTime) (noise : ℝ) :
    (generate_traffic_pattern sim ts noise).1 = ts ∧
    0 ≤ (generate_traffic_pattern sim ts noise).2 := by
  refine ⟨rfl, ?_⟩
  show (0 : ℤ) ≤ max 0 _
  exact le_max_left 0 _

lemma windowState_nil (w : ℕ) : initState w = windowState w [] := by
  unfold initState windowState
  simp

lemma slice_step {α : Type} (w : ℕ) (hw : 1 ≤ w) (L : List α) (x : α) (hn : w ≤ L.length) :
    pySliceLast w (L.drop (L.length - w) ++ [x]) = (L ++ [x]).drop (L.length + 1 - w) := by
  unfold pySliceLast
  rw [if_neg (by omega : ¬ w = 0)]
  have hlen : (L.drop (L.length - w) ++ [x]).length = w + 1 := by
    simp only [List.length_append, List.length_drop, List.length_cons, List.length_nil]
    omega
  rw [hlen]
  have h1 : w + 1 - w = 1 := by omega
  have h2 : L.length + 1 - w = (L.length - w) + 1 := by omega
  rw [h1, h2, ← List.drop_drop, List.drop_append_of_le_length (Nat.sub_le _ _)]

lemma slice_step_small {α : Type} (w : ℕ) (L : List α) (x : α) (hn : L.length < w) :
    L.drop (L.length - w) ++ [x] = (L ++ [x]).drop (L.length + 1 - w) := by
  have h1 : L.length - w = 0 := by omega
  have h2 : L.length + 1 - w = 0 := by omega
  rw [h1, h2, List.drop_zero, List.drop_zero]

lemma add_datapoint_windowState (w : ℕ) (hw : 1 ≤ w) (hist : List Obs) (o : Obs) :
    add_datapoint (windowState w hist) o.1 o.2.1 o.2.2 = windowState w (hist ++ [o]) := by
  unfold add_datapoint windowState
  simp only [List.map_append, List.map_cons, List.map_nil, List.length_append,
    List.length_cons, List.length_nil]
  by_cases hn : w ≤ hist.length
  · rw [if_pos (by
      simp only [List.length_append, List.length_drop, List.length_map,
        List.length_cons, List.length_nil]
      omega)]
    have ht := slice_step w hw (hist.map (fun o => o.1)) o.1 (by simpa using hn)
    have hc := slice_step w hw (hist.map (fun o => o.2.1)) o.2.1 (by simpa using hn)
    have hp := slice_step w hw (hist.map (fun o => o.2.2)) o.2.2 (by simpa using hn)
    simp only [List.length_map] at ht hc hp
    simp [ht, hc, hp]
  · rw [if_neg (by
      simp only [List.length_append, List.length_drop, List.length_map,
        List.length_cons, List.length_nil]
      omega)]
    have ht := slice_step_small w (hist.map (fun o => o.1)) o.1 (by simpa using (by omega : hist.length < w))
    have hc := slice_step_small w (hist.map (fun o => o.2.1)) o.2.1 (by simpa using (by omega : hist.length < w))
    have hp := slice_step_small w (hist.map (fun o => o.2.2)) o.2.2 (by simpa using (by omega : hist.length < w))
    simp only [List.length_map] at ht hc hp
    simp [ht, hc, hp]

lemma add_all_windowState (w : ℕ) (hw : 1 ≤ w) (l : List Obs) :
    ∀ hist : List Obs, add_all (windowState w hist) l = windowState w (hist ++ l) := by
  induction l with
  | nil => intro hist; simp [add_all]
  | cons o l ih =>
    intro hist
    show add_all (add_datapoint (windowState w hist) o.1 o.2.1 o.2.2) l = _
    rw [add_datapoint_windowState w hw hist o, ih (hist ++ [o])]
    simp

/-- C2 (amended to window_size at least 1): after any sequence of
add_datapoint calls into a fresh predictor, each parallel history list is
exactly the corresponding projection of the most recent min(N, w)
insertions, in insertion order. -/
theorem c2_window_bound (w : ℕ) (hw : 1 ≤ w) (l : List Obs) :
    (add_all (initState w) l).history_times = (l.map (fun o => o.1)).drop (l.length - w) ∧
    (add_all (initState w) l).history_counts = (l.map (fun o => o.2.1)).drop (l.length - w) ∧
    (add_all (initState w) l).history_temps = (l.map (fun o => o.2.2)).drop (l.length - w) ∧
    (add_all (initState w) l).history_times.length = min l.length w := by
  have h0 : add_all (initState w) l = windowState w l := by
    rw [windowState_nil w]
    simpa using add_all_windowState w hw l []
  rw [h0]
  unfold windowState
  refine ⟨rfl, rfl, rfl, ?_⟩
  simp only [List.length_drop, List.length_map]
  omega

/-- Witness for C2's amended theorem at window_size 2 and three insertions. -/
theorem c2_window_bound_witness :
    1 ≤ 2 ∧
    ((add_all (initState 2) demoObs).history_times =
        (demoObs.map (fun o => o.1)).drop (demoObs.length - 2) ∧
      (add_all (initState 2) demoObs).history_counts =
        (demoObs.map (fun o => o.2.1)).drop (demoObs.length - 2) ∧
      (add_all (initState 2) demoObs).history_temps =
        (demoObs.map (fun o => o.2.2)).drop (demoObs.length - 2) ∧
      (add_all (initState 2) demoObs).history_times.length = min demoObs.length 2) :=
  ⟨by decide, c2_window_bound 2 (by decide) demoObs⟩

/-- Counterexample to C2 as stated: with window_size 0 the Python slice
`l[-0:]` keeps the whole list, so after one insertion the retained count
is 1, not min(1, 0) = 0. -/
theorem c2_window_bound_counterexample :
    (add_datapoint (initState 0) 0 100 27).history_times.length = 1 ∧
    min 1 (initState 0).window_size = 0 := by
  constructor
  · rfl
  · rfl

lemma curve_arg (hour : ℝ) :
    _calculate_temperature_noisefree hour =
      27 + 7 * Real.sin (Real.pi * (hour - 20) / 12 + Real.pi / 2) := by
  unfold _calculate_temperature_noisefree
  norm_num
  congr 1
  ring

/-- C1 fails on the code: the noise-free curve attains its daily maximum
at hour 20 (value 34) and its daily minimum at hour 8 (value 20); at the
claimed peak hour 14 the value is only 27 (the base temperature) and the
claimed trough hour 5 sits strictly above the real trough. The code's
own comments promise a peak at 14:00 and a trough at 05:00, which a
24-hour sinusoid cannot even have (they are 9 hours apart, not 12). -/
theorem c1_sinusoid_extremes :
    (∀ h : ℝ, _calculate_temperature_noisefree h ≤ _calculate_temperature_noisefree 20) ∧
    (∀ h : ℝ, _calculate_temperature_noisefree 8 ≤ _calculate_temperature_noisefree h) ∧
    _calculate_temperature_noisefree 14 < _calculate_temperature_noisefree 20 ∧
    _calculate_temperature_noisefree 8 < _calculate_temperature_noisefree 5 := by
  have h20 : _calculate_temperature_noisefree 20 = 34 := by
    rw [curve_arg]
    norm_num [Real.sin_pi_div_two]
  have h14 : _calculate_temperature_noisefree 14 = 27 := by
    rw [curve_arg]
    have harg : Real.pi * ((14 : ℝ) - 20) / 12 + Real.pi / 2 = 0 := by ring
    rw [harg, Real.sin_zero]
    norm_num
  have h8 : _calculate_temperature_noisefree 8 = 20 := by
    rw [curve_arg]
    have harg : Real.pi * ((8 : ℝ) - 20) / 12 + Real.pi / 2 = -(Real.pi / 2) := by ring
    rw [harg, Real.sin_neg, Real.sin_pi_div_two]
    norm_num
  have h5v : _calculate_temperature_noisefree 5 = 27 - 7 * (Real.sqrt 2 / 2) := by
    rw [curve_arg]
    have harg : Real.pi * ((5 : ℝ) - 20) / 12 + Real.pi / 2 = -(Real.pi - Real.pi / 4) := by
      ring
    rw [harg, Real.sin_neg, Real.sin_pi_sub, Real.sin_pi_div_four]
    ring
  have hsqrt : Real.sqrt 2 < 2 := by
    nlinarith [Real.sq_sqrt (by norm_num : (0:ℝ) ≤ 2), Real.sqrt_nonneg 2]
  refine ⟨?_, ?_, ?_, ?_⟩
  · intro h
    rw [h20, curve_arg]
    nlinarith [Real.sin_le_one (Real.pi * (h - 20) / 12 + Real.pi / 2)]
  · intro h
    rw [h8, curve_arg]
    nlinarith [Real.neg_one_le_sin (Real.pi * (h - 20) / 12 + Real.pi / 2)]
  · rw [h14, h20]; norm_num
  · rw [h8, h5v]; nlinarith
lemma minBy_isSome {α : Type} (f : α → ℚ) (l : List α) (hl : l ≠ []) :
    (minBy f l).isSome = true := by
  cases l with
  | nil => simp at hl
  | cons x xs =>
    show (match minBy f xs with
      | none => some x
      | some m => if f x ≤ f m then some x else some m).isSome = true
    cases minBy f xs with
    | none => rfl
    | some m =>
      by_cases h : f x ≤ f m <;> simp [h]

lemma minBy_spec {α : Type} (f : α → ℚ) (d : α) (l : List α) (hl : l ≠ []) :
    ∃ j, j < l.length ∧ minBy f l = some (l.getD j d) ∧
      (∀ i, i < l.length → f (l.getD j d) ≤ f (l.getD i d)) ∧
      (∀ i, i < j → f (l.getD j d) < f (l.getD i d)) := by
  induction l with
  | nil => simp at hl
  | cons x xs ih =>
    rcases eq_or_ne xs [] with rfl | hxs
    · refine ⟨0, by simp, rfl, ?_, by omega⟩
      intro i hi
      have hi0 : i = 0 := by simpa using hi
      subst hi0
      exact le_refl _
    · obtain ⟨j, hj, hm, hmin, hfirst⟩ := ih hxs
      have heq : minBy f (x :: xs) =
          if f x ≤ f (xs.getD j d) then some x else some (xs.getD j d) := by
        show (match minBy f xs with
          | none => some x
          | some m => if f x ≤ f m then some x else some m) = _
        rw [hm]
      by_cases hle : f x ≤ f (xs.getD j d)
      · refine ⟨0, by simp, by rw [heq, if_pos hle]; rfl, ?_, by omega⟩
        intro i hi
        cases i with
        | zero => exact le_refl _
        | succ i' =>
          rw [List.getD_cons_zero, List.getD_cons_succ]
          exact le_trans hle (hmin i' (by simpa using hi))
      · push_neg at hle
        refine ⟨j + 1, by simpa using hj, by rw [heq, if_neg (not_le.mpr hle)]; rfl, ?_, ?_⟩
        · intro i hi
          cases i with
          | zero =>
            rw [List.getD_cons_succ, List.getD_cons_zero]
            exact le_of_lt hle
          | succ i' =>
            rw [List.getD_cons_succ, List.getD_cons_succ]
            exact hmin i' (by simpa using hi)
        · intro i hi
          cases i with
          | zero =>
            rw [List.getD_cons_succ, List.getD_cons_zero]
            exact hle
          | succ i' =>
            rw [List.getD_cons_succ, List.getD_cons_succ]
            exact hfirst i' (by omega)

lemma getD_map_range {β : Type} (f : ℕ → β) (d : β) (k i : ℕ) (h : i < k) :
    ((List.range k).map f).getD i d = f i := by
  rw [List.getD_eq_getElem?_getD, List.getElem?_map, List.getElem?_range h]
  rfl

lemma ceil_div_60 (k : ℕ) (hk : 1 ≤ k) : (k + 59) / 60 = Nat.ceil ((k : ℚ) / 60) := by
  have hdm := Nat.div_add_mod (k + 59) 60
  have hmod := Nat.mod_lt (k + 59) (by norm_num : 0 < 60)
  set m := (k + 59) / 60 with hm
  have h1 : 1 ≤ m := by omega
  have h2 : k ≤ m * 60 := by omega
  have h3 : (m - 1) * 60 < k := by omega
  symm
  rw [Nat.ceil_eq_iff (by omega : m ≠ 0)]
  constructor
  · rw [lt_div_iff₀ (by norm_num : (0:ℚ) < 60)]
    exact_mod_cast h3
  · rw [div_le_iff₀ (by norm_num : (0:ℚ) < 60)]
    exact_mod_cast h2

lemma forecastData_length (tempAt : ℚ → ℚ) (now : ℚ) (k : ℕ) :
    (forecastData tempAt now k).length = (k + 59) / 60 := by
  unfold forecastData get_forecast
  rw [List.length_map, List.length_range]

lemma futureTimes_length (s : PredictorState) (k : ℕ) :
    (futureTimes s k).length = k := by
  unfold futureTimes
  rw [List.length_map, List.length_range]

lemma futureTemps_length (s : PredictorState) (tempAt : ℚ → ℚ) (now : ℚ) (k : ℕ) :
    (futureTemps s tempAt now k).length = k := by
  unfold futureTemps
  rw [List.length_map, futureTimes_length]

lemma predictReal_length (s : PredictorState) (tempAt : ℚ → ℚ) (now : ℚ) (k : ℕ) :
    (predictReal s tempAt now k).length = k := by
  unfold predictReal
  rw [List.length_map, List.length_zip, List.length_map, futureTimes_length,
    futureTemps_length, min_self]

lemma predict_next_fit (s : PredictorState) (tempAt : ℚ → ℚ) (now : ℚ) (k : ℕ)
    (h5 : 5 ≤ s.history_times.length) :
    predict_next s tempAt now k =
      ({ s with model := fittedModel s },
       (futureTimes s k,
        (predictReal s tempAt now k).map ratTrunc,
        futureTemps s tempAt now k)) := by
  unfold predict_next
  rw [if_neg (by omega)]

lemma ratTrunc_nonneg_spec (x : ℚ) (hx : 0 ≤ x) :
    (ratTrunc x : ℚ) ≤ x ∧ x - 1 < (ratTrunc x : ℚ) := by
  unfold ratTrunc
  rw [if_pos hx]
  constructor
  · exact_mod_cast Int.floor_le x
  · have := Int.lt_floor_add_one x
    linarith

lemma ratTrunc_neg_spec (x : ℚ) (hx : x < 0) :
    x ≤ (ratTrunc x : ℚ) ∧ (ratTrunc x : ℚ) < x + 1 := by
  unfold ratTrunc
  rw [if_neg (by linarith)]
  have h1 := Int.floor_le (-x)
  have h2 := Int.lt_floor_add_one (-x)
  constructor
  · push_cast
    linarith
  · push_cast
    linarith

/-- C4: past the guard, predict_next(minutes_ahead=k) returns three
sequences of length exactly k; the i-th timestamp equals the newest
retained observation's timestamp plus (i+1) minutes (60*(i+1) seconds);
and the returned counts are the fitted model's real-valued outputs
truncated toward zero (floor for nonnegative outputs, toward-zero, not
rounding, for negative ones). -/
theorem c4_prediction_shape (s : PredictorState) (tempAt : ℚ → ℚ) (now : ℚ) (k : ℕ)
    (h5 : 5 ≤ s.history_times.length) (_hk : 1 ≤ k) :
    (predict_next s tempAt now k).2.1.length = k ∧
    (predict_next s tempAt now k).2.2.1.length = k ∧
    (predict_next s tempAt now k).2.2.2.length = k ∧
    (∀ i, i < k → (predict_next s tempAt now k).2.1.getD i 0 =
      s.history_times.getLastD 0 + 60 * ((i : ℚ) + 1)) ∧
    (predict_next s tempAt now k).2.2.1 = (predictReal s tempAt now k).map ratTrunc ∧
    (∀ x : ℚ, 0 ≤ x → ((ratTrunc x : ℚ) ≤ x ∧ x - 1 < (ratTrunc x : ℚ))) ∧
    (∀ x : ℚ, x < 0 → (x ≤ (ratTrunc x : ℚ) ∧ (ratTrunc x : ℚ) < x + 1)) := by
  rw [predict_next_fit s tempAt now k h5]
  refine ⟨futureTimes_length s k, ?_, futureTemps_length s tempAt now k, ?_, rfl,
    ratTrunc_nonneg_spec, ratTrunc_neg_spec⟩
  · rw [List.length_map, predictReal_length]
  · intro i hi
    unfold futureTimes
    exact getD_map_range _ 0 k i hi

/-- Witness for C4 at a concrete five-observation state and k = 3. -/
theorem c4_prediction_shape_witness :
    (5 ≤ demoState.history_times.length ∧ 1 ≤ 3) ∧
    ((predict_next demoState tempConst 0 3).2.1.length = 3 ∧
     (predict_next demoState tempConst 0 3).2.2.1.length = 3 ∧
     (predict_next demoState tempConst 0 3).2.2.2.length = 3 ∧
     (∀ i, i < 3 → (predict_next demoState tempConst 0 3).2.1.getD i 0 =
       demoState.history_times.getLastD 0 + 60 * ((i : ℚ) + 1)) ∧
     (predict_next demoState tempConst 0 3).2.2.1 =
       (predictReal demoState tempConst 0 3).map ratTrunc ∧
     (∀ x : ℚ, 0 ≤ x → ((ratTrunc x : ℚ) ≤ x ∧ x - 1 < (ratTrunc x : ℚ))) ∧
     (∀ x : ℚ, x < 0 → (x ≤ (ratTrunc x : ℚ) ∧ (ratTrunc x : ℚ) < x + 1))) :=
  ⟨⟨by decide, by decide⟩, c4_prediction_shape demoState tempConst 0 3 (by decide) (by decide)⟩

/-- C6: past the guard, the temperature generator is asked for exactly
ceil(k/60) hourly forecast points (computed as (k+59)/60), the returned
temperatures are exactly the closest-forecast-point matches of the k
future timestamps, and the minimum-selection picks, for any target time,
a forecast point of minimal absolute time difference whose index is the
first among the minimizers. -/
theorem c6_forecast_matching (s : PredictorState) (tempAt : ℚ → ℚ) (now : ℚ) (k : ℕ)
    (h5 : 5 ≤ s.history_times.length) (hk : 1 ≤ k) :
    (forecastData tempAt now k).length = (k + 59) / 60 ∧
    (k + 59) / 60 = Nat.ceil ((k : ℚ) / 60) ∧
    (predict_next s tempAt now k).2.2.2 =
      (futureTimes s k).map (matchedTemp (forecastData tempAt now k)) ∧
    (∀ t : ℚ, ∃ j, j < (forecastData tempAt now k).length ∧
      minBy (fun p => |p.1 - t|) (forecastData tempAt now k) =
        some ((forecastData tempAt now k).getD j (0, 0)) ∧
      (∀ i, i < (forecastData tempAt now k).length →
        |((forecastData tempAt now k).getD j (0, 0)).1 - t| ≤
          |((forecastData tempAt now k).getD i (0, 0)).1 - t|) ∧
      (∀ i, i < j →
        |((forecastData tempAt now k).getD j (0, 0)).1 - t| <
          |((forecastData tempAt now k).getD i (0, 0)).1 - t|)) := by
  have hlen := forecastData_length tempAt now k
  have hne : forecastData tempAt now k ≠ [] := by
    have : 0 < (forecastData tempAt now k).length := by
      rw [hlen]; omega
    exact List.length_pos.mp this
  refine ⟨hlen, ceil_div_60 k hk, ?_, ?_⟩
  · rw [predict_next_fit s tempAt now k h5]
    rfl
  · intro t
    obtain ⟨j, h1, h2, h3, h4⟩ :=
      minBy_spec (fun p : ℚ × ℚ => |p.1 - t|) ((0 : ℚ), (0 : ℚ)) (forecastData tempAt now k) hne
    exact ⟨j, h1, h2, h3, h4⟩

/-- Witness for C6 at a concrete five-observation state and k = 3. -/
theorem c6_forecast_matching_witness :
    (5 ≤ demoState.history_times.length ∧ 1 ≤ 3) ∧
    ((forecastData tempConst 0 3).length = (3 + 59) / 60 ∧
     (3 + 59) / 60 = Nat.ceil ((3 : ℚ) / 60) ∧
     (predict_next demoState tempConst 0 3).2.2.2 =
       (futureTimes demoState 3).map (matchedTemp (forecastData tempConst 0 3)) ∧
     (∀ t : ℚ, ∃ j, j < (forecastData tempConst 0 3).length ∧
       minBy (fun p => |p.1 - t|) (forecastData tempConst 0 3) =
         some ((forecastData tempConst 0 3).getD j (0, 0)) ∧
       (∀ i, i < (forecastData tempConst 0 3).length →
         |((forecastData tempConst 0 3).getD j (0, 0)).1 - t| ≤
           |((forecastData tempConst 0 3).getD i (0, 0)).1 - t|) ∧
       (∀ i, i < j →
         |((forecastData tempConst 0 3).getD j (0, 0)).1 - t| <
           |((forecastData tempConst 0 3).getD i (0, 0)).1 - t|))) :=
  ⟨⟨by decide, by decide⟩, c6_forecast_matching demoState tempConst 0 3 (by decide) (by decide)⟩

/-- C10: past the guard with minutes_ahead at least 1, the requested
forecast horizon (k+59)/60 is at least 1, the forecast list has exactly
that many points and is nonempty, so the minimum-selection over it
returns a value for every target time and cannot fail. -/
theorem c10_matching_total (s : PredictorState) (tempAt : ℚ → ℚ) (now : ℚ) (k : ℕ)
    (_h5 : 5 ≤ s.history_times.length) (hk : 1 ≤ k) :
    1 ≤ (k + 59) / 60 ∧
    (forecastData tempAt now k).length = (k + 59) / 60 ∧
    forecastData tempAt now k ≠ [] ∧
    ∀ t : ℚ, (minBy (fun p => |p.1 - t|) (forecastData tempAt now k)).isSome = true := by
  have hlen := forecastData_length tempAt now k
  have hne : forecastData tempAt now k ≠ [] := by
    have : 0 < (forecastData tempAt now k).length := by
      rw [hlen]; omega
    exact List.length_pos.mp this
  exact ⟨by omega, hlen, hne, fun t => minBy_isSome _ _ hne⟩

/-- Witness for C10 at a concrete five-observation state and k = 1. -/
theorem c10_matching_total_witness :
    (5 ≤ demoState.history_times.length ∧ 1 ≤ 1) ∧
    (1 ≤ (1 + 59) / 60 ∧
     (forecastData tempConst 0 1).length = (1 + 59) / 60 ∧
     forecastData tempConst 0 1 ≠ [] ∧
     ∀ t : ℚ, (minBy (fun p => |p.1 - t|) (forecastData tempConst 0 1)).isSome = true) :=
  ⟨⟨by decide, by decide⟩, c10_matching_total demoState tempConst 0 1 (by decide) (by decide)⟩
